import Mathlib

/-
Batteries seals the arithmetic on `Rat`, which blocks `decide` from
evaluating the executable definitions below on concrete rationals; unseal
it so concrete runs of the embedded engine can be checked by `decide`.
(This only affects elaboration: kernel checking is unchanged.)
-/
unseal Rat.add Rat.mul Rat.sub Rat.inv Rat.ofScientific

/-!
# Verification of the LoL kills betting model

Shallow embedding of `betting_model.py` (class `KillsBettingModel`).

Modelling conventions:
* Python floats are idealised as exact rationals (`ℚ`).
* The external `scipy.stats.poisson.cdf` is not part of this repository;
  it is kept as an abstract function parameter `cdf : ℤ → ℚ → ℚ`
  (first argument `k`, second the Poisson mean).
* A pandas `DataFrame` is a list of column names plus a list of rows,
  where a row maps a column name to a stored cell.
* Cells relevant to the model are either numbers or non-numeric strings;
  `pd.to_numeric(..., errors="coerce")` maps the latter to NaN, and a
  pandas comparison of such a column with a number raises `TypeError`.
-/

set_option autoImplicit false

namespace BettingModel

/-- A cell of the input table: a number, or non-numeric content
(modelled as a string). -/
inductive Value where
  | num (q : ℚ)
  | str (s : String)
deriving DecidableEq

/-- A pandas `DataFrame`: the column names and the rows in order; each row
maps a column name to its cell. -/
structure DataFrame where
  cols : List String
  rows : List (String → Value)

/-- `df[c]`: the cells of column `c`, in row order. -/
def getCol (df : DataFrame) (c : String) : List Value :=
  df.rows.map (fun r => r c)

/-- `KillsBettingModel.required_columns` (constructor, source lines 20-23). -/
def required_columns : List String :=
  ["player", "avg_kills", "odds_over", "line_over", "odds_under", "line_under"]

/-- `numeric_cols` in `validate_data` (source line 49). -/
def numeric_cols : List String :=
  ["avg_kills", "odds_over", "line_over", "odds_under", "line_under"]

/-- Python `float(v)`: succeeds on numbers, raises (`none`) on non-numeric
content. -/
def toFloat? : Value → Option ℚ
  | Value.num q => some q
  | Value.str _ => none

/-- All cells of a column as numbers, or `none` when the column holds a
non-numeric cell (comparing such a column with a number raises `TypeError`). -/
def colNums? : List Value → Option (List ℚ)
  | [] => some []
  | v :: vs =>
    match toFloat? v, colNums? vs with
    | some q, some qs => some (q :: qs)
    | _, _ => none

/-- Positions (pandas row labels under the default range index) of the
non-numeric cells, starting at `i`. -/
def nullIndicesFrom : Nat → List Value → List Nat
  | _, [] => []
  | i, Value.num _ :: vs => nullIndicesFrom (i + 1) vs
  | i, Value.str _ :: vs => i :: nullIndicesFrom (i + 1) vs

/-- `df[pd.to_numeric(df[col], errors="coerce").isnull()].index.tolist()`. -/
def nullIndices (vs : List Value) : List Nat :=
  nullIndicesFrom 0 vs

/-- `np.allclose(a, b, atol=1e-6)`: elementwise
`|a - b| <= atol + rtol * |b|`, with the numpy default `rtol = 1e-5`. -/
def allcloseQ (a b : List ℚ) : Bool :=
  (a.zip b).all (fun p => |p.1 - p.2| ≤ 1 / 1000000 + |p.2| / 100000)

/-- One entry of the `errors` list built by `validate_data`.  Each
constructor stands for one of the message strings the source appends,
carrying exactly the data interpolated into that message:
* `missingColumns`: "Columnas faltantes: ..." (source line 40; the Python
  set difference is modelled as the sublist of `required_columns` absent
  from the frame, which fixes an order the set leaves unspecified);
* `emptyFrame`: "DataFrame vacío" (line 45);
* `nonNumeric`: "Valores no numéricos en columna c (filas: rows)"
  (line 57) — the only message that interpolates row indices;
* `avgKillsNonpositive`: "avg_kills debe ser mayor que 0" (line 63);
* `oddsNotAboveOne`: "Las cuotas (odds) deben ser mayores que 1.0" (line 67);
* `negativeLine`: "Las líneas deben ser no negativas" (line 71);
* `linesMismatch`: "line_over y line_under deben ser iguales" (line 75);
* `valueError`: "Error en validación de valores: ..." (line 78). -/
inductive Diagnostic where
  | missingColumns (cols : List String)
  | emptyFrame
  | nonNumeric (col : String) (rows : List Nat)
  | avgKillsNonpositive
  | oddsNotAboveOne
  | negativeLine
  | linesMismatch
  | valueError
deriving DecidableEq

/-- The row indices a diagnostic's message text names, if any: only the
non-numeric coercion message (source line 57) interpolates row indices. -/
def Diagnostic.reportedRows : Diagnostic → Option (List Nat)
  | Diagnostic.nonNumeric _ rows => some rows
  | _ => none

/-- The coercion loop of `validate_data` (source lines 51-57): one
diagnostic per column that has non-numeric cells, naming the column and
the offending row indices. -/
def coercionErrors (df : DataFrame) : List Diagnostic :=
  numeric_cols.filterMap (fun c =>
    let idxs := nullIndices (getCol df c)
    if idxs.isEmpty then none else some (Diagnostic.nonNumeric c idxs))

/-- The line checks of `validate_data` (source lines 69-75):
`(df['line_over'] < 0).any() or (df['line_under'] < 0).any()` followed by
`np.allclose(df['line_over'], df['line_under'], atol=1e-6)`.  Python `or`
short-circuits, and a `TypeError` raised by comparing a non-numeric cell
aborts the enclosing `try` block (`valueError` appended, nothing further
checked). -/
def linesChecks (lo lu : List Value) : List Diagnostic :=
  match colNums? lo with
  | none => [Diagnostic.valueError]
  | some loq =>
    if loq.any (fun q => q < 0) then
      match colNums? lu with
      | none => [Diagnostic.negativeLine, Diagnostic.valueError]
      | some luq =>
        Diagnostic.negativeLine ::
          (if allcloseQ loq luq then [] else [Diagnostic.linesMismatch])
    else
      match colNums? lu with
      | none => [Diagnostic.valueError]
      | some luq =>
        (if luq.any (fun q => q < 0) then [Diagnostic.negativeLine] else [])
          ++ (if allcloseQ loq luq then [] else [Diagnostic.linesMismatch])

/-- The `try` block of business-rule checks in `validate_data` (source
lines 60-78): each violated rule appends one batch-level message; a
`TypeError` from comparing a non-numeric cell aborts the block, keeping
the messages appended so far and adding the caught-exception message. -/
def businessErrors (ak oo ou lo lu : List Value) : List Diagnostic :=
  match colNums? ak with
  | none => [Diagnostic.valueError]
  | some akq =>
    let e1 := if akq.any (fun q => q ≤ 0) then [Diagnostic.avgKillsNonpositive] else []
    match colNums? oo with
    | none => e1 ++ [Diagnostic.valueError]
    | some ooq =>
      if ooq.any (fun q => q ≤ 1) then
        e1 ++ Diagnostic.oddsNotAboveOne :: linesChecks lo lu
      else
        match colNums? ou with
        | none => e1 ++ [Diagnostic.valueError]
        | some ouq =>
          e1 ++ (if ouq.any (fun q => q ≤ 1) then [Diagnostic.oddsNotAboveOne] else [])
            ++ linesChecks lo lu

/-- `KillsBettingModel.validate_data` (source lines 25-80). -/
def validate_data (df : DataFrame) : Bool × List Diagnostic :=
  let missing := required_columns.filter (fun c => !(df.cols.contains c))
  if !missing.isEmpty then
    (false, [Diagnostic.missingColumns missing])
  else if df.rows.isEmpty then
    (false, [Diagnostic.emptyFrame])
  else
    let errors := coercionErrors df ++
      businessErrors (getCol df "avg_kills") (getCol df "odds_over")
        (getCol df "odds_under") (getCol df "line_over") (getCol df "line_under")
    (errors.isEmpty, errors)

/-- `KillsBettingModel.odds_to_implied_probability` (source lines 82-92). -/
def odds_to_implied_probability (odds : ℚ) : ℚ :=
  1 / odds

/-- `KillsBettingModel.calculate_expected_value` (source lines 122-135):
`EV = prob_real * odds - 1.0`. -/
def calculate_expected_value (prob_real odds : ℚ) : ℚ :=
  prob_real * odds - 1

/-- Return value of `calculate_poisson_probabilities` (the dict with keys
`p_over` and `p_under`). -/
structure PoissonProbs where
  p_over : ℚ
  p_under : ℚ
deriving DecidableEq

/-- `KillsBettingModel.calculate_poisson_probabilities` (source lines
94-120).  `cdf` stands for the external `scipy.stats.poisson.cdf`; its
numerics are not part of this repository, so it stays abstract.  The
source computes `line_floor = int(np.floor(line))`, calls the CDF there,
and complements. -/
def calculate_poisson_probabilities (cdf : ℤ → ℚ → ℚ) (avg_kills line : ℚ) :
    PoissonProbs :=
  let line_floor : ℤ := ⌊line⌋
  let p_under := cdf line_floor avg_kills
  { p_over := 1 - p_under, p_under := p_under }

/-- Return value of `determine_best_bet` (the dict with keys `best_bet`,
`best_ev`, `is_profitable`). -/
structure BestBet where
  best_bet : String
  best_ev : ℚ
  is_profitable : Bool
deriving DecidableEq

/-- `KillsBettingModel.determine_best_bet` (source lines 137-159). -/
def determine_best_bet (ev_over ev_under : ℚ) : BestBet :=
  if ev_over > ev_under then
    { best_bet := "Over", best_ev := ev_over, is_profitable := ev_over > 0 }
  else
    { best_bet := "Under", best_ev := ev_under, is_profitable := ev_under > 0 }

/-- Python `round` to an integer: round half to even. -/
def roundHalfEven (x : ℚ) : ℤ :=
  if x - (⌊x⌋ : ℚ) < 1 / 2 then ⌊x⌋
  else if x - (⌊x⌋ : ℚ) > 1 / 2 then ⌊x⌋ + 1
  else if ⌊x⌋ % 2 = 0 then ⌊x⌋ else ⌊x⌋ + 1

/-- Python `round(x, 4)`. -/
def round4 (x : ℚ) : ℚ :=
  (roundHalfEven (x * 10000) : ℚ) / 10000

/-- One element of the `results` list built in
`analyze_betting_opportunities` (the per-player output dict, source
lines 214-229). -/
structure ResultRow where
  player : Value
  avg_kills : ℚ
  line : ℚ
  p_over : ℚ
  p_under : ℚ
  EV_over : ℚ
  EV_under : ℚ
  best_bet : String
  best_ev : ℚ
  is_profitable : Bool
  implied_prob_over : ℚ
  implied_prob_under : ℚ
  edge_over : ℚ
  edge_under : ℚ
deriving DecidableEq

/-- The body of the per-player `try` block in
`analyze_betting_opportunities` (source lines 188-229): `none` when the
row raises (a non-numeric cell under `float`, or odds of exactly 0 under
`1.0/odds`), in which case the record is skipped with a warning. -/
def process_row (cdf : ℤ → ℚ → ℚ) (row : String → Value) : Option ResultRow :=
  match toFloat? (row "avg_kills"), toFloat? (row "odds_over"),
        toFloat? (row "odds_under"), toFloat? (row "line_over") with
  | some avg_kills, some odds_over, some odds_under, some line =>
    if odds_over = 0 ∨ odds_under = 0 then none
    else
      let probs := calculate_poisson_probabilities cdf avg_kills line
      let ev_over := calculate_expected_value probs.p_over odds_over
      let ev_under := calculate_expected_value probs.p_under odds_under
      let bb := determine_best_bet ev_over ev_under
      let ipo := odds_to_implied_probability odds_over
      let ipu := odds_to_implied_probability odds_under
      some
        { player := row "player"
          avg_kills := avg_kills
          line := line
          p_over := round4 probs.p_over
          p_under := round4 probs.p_under
          EV_over := round4 ev_over
          EV_under := round4 ev_under
          best_bet := bb.best_bet
          best_ev := round4 bb.best_ev
          is_profitable := bb.is_profitable
          implied_prob_over := round4 ipo
          implied_prob_under := round4 ipu
          edge_over := round4 (probs.p_over - ipo)
          edge_under := round4 (probs.p_under - ipu) }
  | _, _, _, _ => none

/-- The per-record loop of `analyze_betting_opportunities` (source lines
187-233): failed records are skipped, survivors are collected in input
order. -/
def score_records (cdf : ℤ → ℚ → ℚ) (rows : List (String → Value)) :
    List ResultRow :=
  rows.filterMap (process_row cdf)

/-- Insertion keeping larger `best_ev` first.  The source sorts with
`results_df.sort_values('best_ev', ascending=False)` — pandas default
`kind='quicksort'`, whose tie order is unspecified (see the C6 analysis);
the embedding fixes a deterministic comparison on the stored `best_ev`
column, which is the only aspect the theorems below depend on. -/
def insertByBestEv (r : ResultRow) : List ResultRow → List ResultRow
  | [] => [r]
  | x :: xs => if x.best_ev < r.best_ev then r :: x :: xs else x :: insertByBestEv r xs

/-- Batch-level sort of `analyze_betting_opportunities` (source line 243). -/
def sort_by_best_ev (l : List ResultRow) : List ResultRow :=
  l.foldr insertByBestEv []

/-- `KillsBettingModel.analyze_betting_opportunities` (source lines
161-247): `none` models the `return None` paths (validation failure, or
no record survived the per-record stage). -/
def analyze_betting_opportunities (cdf : ℤ → ℚ → ℚ) (df : DataFrame) :
    Option (List ResultRow) :=
  if (validate_data df).1 then
    let results := score_records cdf df.rows
    if results.isEmpty then none
    else some (sort_by_best_ev results)
  else none

/-- Maximum of a list (`Series.max()` over a nonempty column; 0 is a
placeholder for the empty case, which the callers below never reach). -/
def listMax : List ℚ → ℚ
  | [] => 0
  | x :: xs => xs.foldl max x

/-- Minimum of a list (`Series.min()`). -/
def listMin : List ℚ → ℚ
  | [] => 0
  | x :: xs => xs.foldl min x

/-- `Series.mean()`. -/
def listMean (l : List ℚ) : ℚ :=
  l.sum / l.length

/-- `KillsBettingModel.get_summary_statistics` (source lines 249-275), as
the association list of the returned dict in literal order; the empty
dict `{}` returned for an empty frame is the empty list. -/
def get_summary_statistics (results : List ResultRow) : List (String × ℚ) :=
  if results.isEmpty then []
  else
    let evs := results.map (fun r => r.best_ev)
    let profitable := results.filter (fun r => r.is_profitable)
    [("total_players", (results.length : ℚ)),
     ("profitable_opportunities", (profitable.length : ℚ)),
     ("profitability_rate", (profitable.length : ℚ) / (results.length : ℚ)),
     ("best_ev", listMax evs),
     ("worst_ev", listMin evs),
     ("avg_ev", listMean evs),
     ("over_bets", ((results.filter (fun r => r.best_bet = "Over")).length : ℚ)),
     ("under_bets", ((results.filter (fun r => r.best_bet = "Under")).length : ℚ)),
     ("avg_line", listMean (results.map (fun r => r.line))),
     ("avg_kills", listMean (results.map (fun r => r.avg_kills)))]

/-- A fully numeric input row with the given cells (any further column
reads as non-numeric content, which no modelled function consults). -/
def mkNumRow (player : Value) (ak oo lo ou lu : ℚ) : String → Value :=
  fun c =>
    if c = "player" then player
    else if c = "avg_kills" then Value.num ak
    else if c = "odds_over" then Value.num oo
    else if c = "line_over" then Value.num lo
    else if c = "odds_under" then Value.num ou
    else if c = "line_under" then Value.num lu
    else Value.str ""

/-! ### Concrete inputs used by witnesses and counterexamples -/

/-- A sample abstract CDF (non-constant, so floor-dependence is visible). -/
def cdfW : ℤ → ℚ → ℚ := fun k mu => (k : ℚ) + mu

/-- Abstract CDF used by the C7 witness. -/
def cdfR : ℤ → ℚ → ℚ := fun _ _ => 1 / 2

/-- Rational stand-in for `scipy.stats.poisson.cdf(3, 3.8) ≈ 0.47348481`. -/
def cdfC7 : ℤ → ℚ → ℚ := fun _ _ => 47348481 / 100000000

/-- The sample record of the spec's end-to-end scenario (rate 3.8, line
3.5, odds 1.85/1.95). -/
def dfC7 : DataFrame :=
  ⟨required_columns,
   [mkNumRow (Value.str "Carzzy") (19/5) (37/20) (7/2) (39/20) (7/2)]⟩

/-- Abstract CDF used by the C8 witness. -/
def cdfSkip : ℤ → ℚ → ℚ := fun _ _ => 1 / 3

/-- A row every numeric read of which raises. -/
def badRow : String → Value := fun _ => Value.str "NaN"

/-- A frame holding only `badRow`. -/
def dfSkip : DataFrame := ⟨required_columns, [badRow]⟩

/-- Two rows: a clean one, and one violating the rate and odds rules. -/
def dfV : DataFrame :=
  ⟨required_columns,
   [mkNumRow (Value.str "A") 2 (3/2) (5/2) (9/5) (5/2),
    mkNumRow (Value.str "B") 0 1 (5/2) (9/5) (5/2)]⟩

/-- One row violating only the positive-rate rule. -/
def dfC5 : DataFrame :=
  ⟨required_columns, [mkNumRow (Value.str "X") (-1) (3/2) (5/2) (9/5) (5/2)]⟩

/-- A frame missing most required columns. -/
def dfC10 : DataFrame := ⟨["player"], []⟩

/-! ### Helper lemmas -/

theorem nullIndicesFrom_eq_nil {vs : List Value} {qs : List ℚ}
    (h : colNums? vs = some qs) : ∀ i, nullIndicesFrom i vs = [] := by
  induction vs generalizing qs with
  | nil => intro i; rfl
  | cons v vs ih =>
    intro i
    cases v with
    | num q =>
      cases hv : colNums? vs with
      | none => rw [colNums?] at h; simp [toFloat?, hv] at h
      | some qs2 => exact ih hv (i + 1)
    | str s => rw [colNums?] at h; simp [toFloat?] at h

theorem nullIndices_eq_nil {vs : List Value} {qs : List ℚ}
    (h : colNums? vs = some qs) : nullIndices vs = [] :=
  nullIndicesFrom_eq_nil h 0

theorem coercionErrors_eq_nil (df : DataFrame) {akq ooq ouq loq luq : List ℚ}
    (hak : colNums? (getCol df "avg_kills") = some akq)
    (hoo : colNums? (getCol df "odds_over") = some ooq)
    (hou : colNums? (getCol df "odds_under") = some ouq)
    (hlo : colNums? (getCol df "line_over") = some loq)
    (hlu : colNums? (getCol df "line_under") = some luq) :
    coercionErrors df = [] := by
  unfold coercionErrors numeric_cols
  simp [nullIndices_eq_nil hak, nullIndices_eq_nil hoo, nullIndices_eq_nil hou,
    nullIndices_eq_nil hlo, nullIndices_eq_nil hlu]

theorem linesChecks_numeric {lo lu : List Value} {loq luq : List ℚ}
    (hlo : colNums? lo = some loq) (hlu : colNums? lu = some luq) :
    linesChecks lo lu =
      (if loq.any (fun q => q < 0) || luq.any (fun q => q < 0)
        then [Diagnostic.negativeLine] else [])
        ++ (if allcloseQ loq luq then [] else [Diagnostic.linesMismatch]) := by
  unfold linesChecks
  rw [hlo, hlu]
  by_cases h1 : loq.any (fun q => q < 0) <;> by_cases h2 : luq.any (fun q => q < 0) <;>
    simp [h1, h2]

theorem businessErrors_numeric {ak oo ou lo lu : List Value}
    {akq ooq ouq loq luq : List ℚ}
    (hak : colNums? ak = some akq) (hoo : colNums? oo = some ooq)
    (hou : colNums? ou = some ouq) (hlo : colNums? lo = some loq)
    (hlu : colNums? lu = some luq) :
    businessErrors ak oo ou lo lu =
      (if akq.any (fun q => q ≤ 0) then [Diagnostic.avgKillsNonpositive] else [])
        ++ (if ooq.any (fun q => q ≤ 1) || ouq.any (fun q => q ≤ 1)
            then [Diagnostic.oddsNotAboveOne] else [])
        ++ (if loq.any (fun q => q < 0) || luq.any (fun q => q < 0)
            then [Diagnostic.negativeLine] else [])
        ++ (if allcloseQ loq luq then [] else [Diagnostic.linesMismatch]) := by
  unfold businessErrors
  rw [hak, hoo, hou, linesChecks_numeric hlo hlu]
  by_cases h2 : ooq.any (fun q => q ≤ 1) <;> simp [h2, List.append_assoc]

theorem mem_ite_singleton {α : Type} (a b : α) (c : Bool) :
    (a ∈ (if c = true then [b] else [])) ↔ (c = true ∧ a = b) := by
  cases c <;> simp

theorem mem_ite_nil_singleton {α : Type} (a b : α) (c : Bool) :
    (a ∈ (if c = true then [] else [b])) ↔ (c = false ∧ a = b) := by
  cases c <;> simp

theorem rows_isEmpty_false {df : DataFrame} (h : df.rows ≠ []) :
    df.rows.isEmpty = false := by
  cases hdf : df.rows with
  | nil => exact absurd hdf h
  | cons a l => rfl

/-! ### Claim theorems -/

/-- Claim C1: for rate > 0 and line ≥ 0, `calculate_poisson_probabilities`
returns `p_under` equal to the Poisson CDF evaluated at `k = ⌊line⌋` with
mean `rate`, `p_over = 1 - p_under`, and the split depends on `line` only
through `⌊line⌋` (so an exact integer line behaves like any line with the
same floor). -/
theorem poisson_split_uses_floor (cdf : ℤ → ℚ → ℚ) (rate line : ℚ)
    (hrate : 0 < rate) (hline : 0 ≤ line) :
    (calculate_poisson_probabilities cdf rate line).p_under = cdf ⌊line⌋ rate ∧
    (calculate_poisson_probabilities cdf rate line).p_over = 1 - cdf ⌊line⌋ rate ∧
    ∀ line2 : ℚ, ⌊line2⌋ = ⌊line⌋ →
      calculate_poisson_probabilities cdf rate line2 =
        calculate_poisson_probabilities cdf rate line := by
  refine ⟨rfl, rfl, fun line2 h => ?_⟩
  unfold calculate_poisson_probabilities
  rw [h]

/-- Witness for C1 at rate 2, line 3.5 (and the integer line 3, which has
the same floor). -/
theorem poisson_split_uses_floor_witness :
    (calculate_poisson_probabilities cdfW 2 (7/2)).p_under = cdfW ⌊(7/2 : ℚ)⌋ 2 ∧
    calculate_poisson_probabilities cdfW 2 3 =
      calculate_poisson_probabilities cdfW 2 (7/2) := by
  have h := poisson_split_uses_floor cdfW 2 (7/2) (by decide) (by decide)
  exact ⟨h.1, h.2.2 3 (by decide)⟩

/-- Claim C2: `determine_best_bet` picks Over exactly when
`ev_over > ev_under` and Under otherwise (ties included); `best_ev` is the
chosen side's EV and `is_profitable` is `best_ev > 0`. -/
theorem best_bet_side_and_profitability (ev_over ev_under : ℚ) :
    ((determine_best_bet ev_over ev_under).best_bet = "Over" ↔ ev_under < ev_over) ∧
    ((determine_best_bet ev_over ev_under).best_bet = "Under" ↔ ev_over ≤ ev_under) ∧
    (determine_best_bet ev_over ev_under).best_ev =
      (if ev_under < ev_over then ev_over else ev_under) ∧
    ((determine_best_bet ev_over ev_under).is_profitable = true ↔
      0 < (determine_best_bet ev_over ev_under).best_ev) := by
  by_cases h : ev_under < ev_over
  · have h2 : ¬ ev_over ≤ ev_under := not_le.mpr h
    simp [determine_best_bet, gt_iff_lt, h, h2]
  · have h2 : ev_over ≤ ev_under := not_lt.mp h
    simp [determine_best_bet, gt_iff_lt, h, h2]

/-- Witness for C2 at the exact tie 1 = 1: the Under side is chosen. -/
theorem best_bet_side_and_profitability_witness :
    (determine_best_bet 1 1).best_bet = "Under" ∧ (determine_best_bet 1 1).best_ev = 1 :=
  ⟨(best_bet_side_and_profitability 1 1).2.1.mpr le_rfl,
   by rw [(best_bet_side_and_profitability 1 1).2.2.1]; decide⟩

/-- Claim C3: the two probabilities returned by
`calculate_poisson_probabilities` sum to 1 within 1e-9 (in the embedding
the sum is exact). -/
theorem poisson_probs_complementary (cdf : ℤ → ℚ → ℚ) (rate line : ℚ)
    (hrate : 0 < rate) (hline : 0 ≤ line) :
    |(calculate_poisson_probabilities cdf rate line).p_over +
      (calculate_poisson_probabilities cdf rate line).p_under - 1| ≤ 1 / 1000000000 := by
  have h : (calculate_poisson_probabilities cdf rate line).p_over +
      (calculate_poisson_probabilities cdf rate line).p_under - 1 = 0 := by
    unfold calculate_poisson_probabilities
    ring
  rw [h]
  norm_num

/-- Witness for C3 at rate 3, line 2.5. -/
theorem poisson_probs_complementary_witness :
    |(calculate_poisson_probabilities cdfW 3 (5/2)).p_over +
      (calculate_poisson_probabilities cdfW 3 (5/2)).p_under - 1| ≤ 1 / 1000000000 :=
  poisson_probs_complementary cdfW 3 (5/2) (by decide) (by decide)

/-- Claim C4: `calculate_expected_value p odds = p * odds - 1`, and at the
market's implied probability the EV is exactly zero. -/
theorem ev_formula_and_fair_odds_zero (p odds : ℚ)
    (hp0 : 0 ≤ p) (hp1 : p ≤ 1) (hodds : 1 < odds) :
    calculate_expected_value p odds = p * odds - 1 ∧
    calculate_expected_value (odds_to_implied_probability odds) odds = 0 := by
  refine ⟨rfl, ?_⟩
  have h0 : odds ≠ 0 := ne_of_gt (lt_trans zero_lt_one hodds)
  unfold calculate_expected_value odds_to_implied_probability
  field_simp

/-- Witness for C4 at p = 1/3, odds = 2. -/
theorem ev_formula_and_fair_odds_zero_witness :
    calculate_expected_value (1/3) 2 = 1/3 * 2 - 1 ∧
    calculate_expected_value (odds_to_implied_probability 2) 2 = 0 :=
  ev_formula_and_fair_odds_zero (1/3) 2 (by decide) (by decide) (by decide)

/-- Claim C8: `analyze_betting_opportunities` returns `none` exactly when
validation failed or no record survived the per-record stage; a record
whose processing raises is skipped and the remaining records are still
processed. -/
theorem analyze_failure_modes (cdf : ℤ → ℚ → ℚ) (df : DataFrame) :
    (analyze_betting_opportunities cdf df = none ↔
      ((validate_data df).1 = false ∨ score_records cdf df.rows = [])) ∧
    ∀ (row : String → Value) (rows : List (String → Value)),
      process_row cdf row = none →
        score_records cdf (row :: rows) = score_records cdf rows := by
  constructor
  · unfold analyze_betting_opportunities
    cases hv : (validate_data df).1 with
    | false => simp [hv]
    | true =>
      by_cases he : score_records cdf df.rows = [] <;>
        simp [hv, he, List.isEmpty_iff]
  · intro row rows h
    unfold score_records
    simp [List.filterMap_cons, h]

/-- Witness for C8: a frame whose single row raises at the per-record
stage (every cell non-numeric); the row is skipped, and the analysis of
that frame fails. -/
theorem analyze_failure_modes_witness :
    score_records cdfSkip (badRow :: []) = score_records cdfSkip [] ∧
    (analyze_betting_opportunities cdfSkip dfSkip = none ↔
      ((validate_data dfSkip).1 = false ∨ score_records cdfSkip dfSkip.rows = [])) :=
  ⟨(analyze_failure_modes cdfSkip dfSkip).2 badRow [] rfl,
   (analyze_failure_modes cdfSkip dfSkip).1⟩

/-- Claim C9 (amended): `get_summary_statistics` is total; on the empty
input it returns the empty structure — no fields at all, so the
profitability rate is omitted rather than reported as 0 — and the
profitable/total division only happens on nonempty input. -/
theorem summary_empty_structure :
    get_summary_statistics [] = [] ∧
    (∀ key : String, List.lookup key (get_summary_statistics []) = none) ∧
    ∀ (r : ResultRow) (rs : List ResultRow),
      List.lookup "profitability_rate" (get_summary_statistics (r :: rs)) =
        some ((((r :: rs).filter (fun x => x.is_profitable)).length : ℚ) /
          ((r :: rs).length : ℚ)) :=
  ⟨rfl, fun _ => rfl, fun _ _ => rfl⟩

/-- Witness for C9's amended theorem. -/
theorem summary_empty_structure_witness :
    List.lookup "best_ev" (get_summary_statistics []) = none :=
  summary_empty_structure.2.1 "best_ev"

/-- Claim C9 counterexample: on the empty input the returned structure is
the empty dict, so the profitability rate is NOT reported as 0. -/
theorem summary_empty_rate_absent_counterexample :
    get_summary_statistics [] = [] ∧
    List.lookup "profitability_rate" (get_summary_statistics []) ≠ some 0 :=
  ⟨rfl, by decide⟩

/-- Claim C10: the validity flag of `validate_data` is true exactly when
the diagnostics list is empty. -/
theorem valid_iff_no_diagnostics (df : DataFrame) :
    (validate_data df).1 = true ↔ (validate_data df).2 = [] := by
  simp only [validate_data]
  split
  · simp
  · split
    · simp
    · simp [List.isEmpty_iff]

/-- Witness for C10 on a frame with missing columns. -/
theorem valid_iff_no_diagnostics_witness :
    ((validate_data dfC10).1 = true ↔ (validate_data dfC10).2 = []) :=
  valid_iff_no_diagnostics dfC10

/-- Claim C5 (amended): on a batch with all required columns, at least one
row, and fully numeric value columns, `validate_data` checks all four
business rules across every row and reports every violated rule before
returning; but each business diagnostic is a single batch-level message
carrying no row indices (only the coercion diagnostics name rows). -/
theorem validate_business_rules (df : DataFrame)
    (hcols : ∀ c ∈ required_columns, c ∈ df.cols)
    (hrows : df.rows ≠ [])
    (akq ooq ouq loq luq : List ℚ)
    (hak : colNums? (getCol df "avg_kills") = some akq)
    (hoo : colNums? (getCol df "odds_over") = some ooq)
    (hou : colNums? (getCol df "odds_under") = some ouq)
    (hlo : colNums? (getCol df "line_over") = some loq)
    (hlu : colNums? (getCol df "line_under") = some luq) :
    (Diagnostic.avgKillsNonpositive ∈ (validate_data df).2 ↔ ∃ q ∈ akq, q ≤ 0) ∧
    (Diagnostic.oddsNotAboveOne ∈ (validate_data df).2 ↔
      (∃ q ∈ ooq, q ≤ 1) ∨ (∃ q ∈ ouq, q ≤ 1)) ∧
    (Diagnostic.negativeLine ∈ (validate_data df).2 ↔
      (∃ q ∈ loq, q < 0) ∨ (∃ q ∈ luq, q < 0)) ∧
    (Diagnostic.linesMismatch ∈ (validate_data df).2 ↔ allcloseQ loq luq = false) ∧
    (∀ d ∈ (validate_data df).2, d.reportedRows = none) := by
  have hmiss : required_columns.filter (fun c => !(df.cols.contains c)) = [] := by
    rw [List.filter_eq_nil_iff]
    intro c hc
    simp [hcols c hc]

  have hval : (validate_data df).2 =
      businessErrors (getCol df "avg_kills") (getCol df "odds_over")
        (getCol df "odds_under") (getCol df "line_over") (getCol df "line_under") := by
    simp only [validate_data]
    rw [hmiss]
    simp [rows_isEmpty_false hrows, coercionErrors_eq_nil df hak hoo hou hlo hlu]
  rw [hval, businessErrors_numeric hak hoo hou hlo hlu]
  refine ⟨?_, ?_, ?_, ?_, ?_⟩
  · simp [mem_ite_singleton, mem_ite_nil_singleton, List.any_eq_true]
  · simp [mem_ite_singleton, mem_ite_nil_singleton, List.any_eq_true]
  · simp [mem_ite_singleton, mem_ite_nil_singleton, List.any_eq_true]
  · simp [mem_ite_singleton, mem_ite_nil_singleton, List.any_eq_true]
  · intro d hd
    simp only [List.mem_append, mem_ite_singleton, mem_ite_nil_singleton] at hd
    rcases hd with (((⟨-, rfl⟩ | ⟨-, rfl⟩) | ⟨-, rfl⟩) | ⟨-, rfl⟩) <;> rfl

/-- Witness for C5's amended theorem: a two-row batch violating the
positive-rate rule (row 1) and the odds rule (row 1); both diagnostics
are reported, the matching-lines diagnostic is not. -/
theorem validate_business_rules_witness :
    Diagnostic.avgKillsNonpositive ∈ (validate_data dfV).2 ∧
    Diagnostic.oddsNotAboveOne ∈ (validate_data dfV).2 ∧
    Diagnostic.linesMismatch ∉ (validate_data dfV).2 := by
  have h := validate_business_rules dfV (by decide) (List.cons_ne_nil _ _)
    [2, 0] [3/2, 1] [9/5, 9/5] [5/2, 5/2] [5/2, 5/2]
    (by decide) (by decide) (by decide) (by decide) (by decide)
  exact ⟨h.1.mpr (by decide), h.2.1.mpr (by decide),
    fun hm => absurd (h.2.2.2.1.mp hm) (by decide)⟩

/-- Claim C5 counterexample: a one-row batch whose only violation is a
nonpositive rate; the resulting business-rule diagnostic names no row
indices (its message interpolates nothing), contradicting the claim that
each business-rule diagnostic reports the offending rows. -/
theorem business_diagnostics_lack_row_indices_counterexample :
    validate_data dfC5 = (false, [Diagnostic.avgKillsNonpositive]) ∧
    Diagnostic.reportedRows Diagnostic.avgKillsNonpositive = none :=
  ⟨by decide, rfl⟩

/-- Claim C7 (amended): rounding to 4 decimal places happens when the
per-record output row is built — probability, EV, implied-probability and
edge fields and `best_ev` are stored rounded, while `avg_kills` and
`line` are carried unrounded and `is_profitable` is decided on the
unrounded EVs — so the batch-level sort and the summary statistics read
the stored, rounded `best_ev` column (the summary's best EV is the
maximum of the stored values). -/
theorem rounding_at_record_construction (cdf : ℤ → ℚ → ℚ) (player : Value)
    (ak oo lo ou lu : ℚ) (hoo : oo ≠ 0) (hou : ou ≠ 0) :
    process_row cdf (mkNumRow player ak oo lo ou lu) =
      some
        { player := player
          avg_kills := ak
          line := lo
          p_over := round4 (calculate_poisson_probabilities cdf ak lo).p_over
          p_under := round4 (calculate_poisson_probabilities cdf ak lo).p_under
          EV_over := round4 (calculate_expected_value
            (calculate_poisson_probabilities cdf ak lo).p_over oo)
          EV_under := round4 (calculate_expected_value
            (calculate_poisson_probabilities cdf ak lo).p_under ou)
          best_bet := (determine_best_bet
            (calculate_expected_value (calculate_poisson_probabilities cdf ak lo).p_over oo)
            (calculate_expected_value (calculate_poisson_probabilities cdf ak lo).p_under ou)).best_bet
          best_ev := round4 (determine_best_bet
            (calculate_expected_value (calculate_poisson_probabilities cdf ak lo).p_over oo)
            (calculate_expected_value (calculate_poisson_probabilities cdf ak lo).p_under ou)).best_ev
          is_profitable := (determine_best_bet
            (calculate_expected_value (calculate_poisson_probabilities cdf ak lo).p_over oo)
            (calculate_expected_value (calculate_poisson_probabilities cdf ak lo).p_under ou)).is_profitable
          implied_prob_over := round4 (odds_to_implied_probability oo)
          implied_prob_under := round4 (odds_to_implied_probability ou)
          edge_over := round4 ((calculate_poisson_probabilities cdf ak lo).p_over -
            odds_to_implied_probability oo)
          edge_under := round4 ((calculate_poisson_probabilities cdf ak lo).p_under -
            odds_to_implied_probability ou) } ∧
    ∀ (r : ResultRow) (rs : List ResultRow),
      List.lookup "best_ev" (get_summary_statistics (r :: rs)) =
        some (listMax ((r :: rs).map (fun x => x.best_ev))) := by
  refine ⟨?_, fun r rs => rfl⟩
  exact if_neg (not_or.mpr ⟨hoo, hou⟩)

/-- Witness for C7's amended theorem on a concrete record (abstract CDF
value 1/2, rate 3, odds 2 and 3, line 2.5). -/
theorem rounding_at_record_construction_witness :
    process_row cdfR (mkNumRow (Value.str "P") 3 2 (5/2) 3 (5/2)) =
      some { player := Value.str "P", avg_kills := 3, line := 5/2,
             p_over := 1/2, p_under := 1/2, EV_over := 0, EV_under := 1/2,
             best_bet := "Under", best_ev := 1/2, is_profitable := true,
             implied_prob_over := 1/2, implied_prob_under := 3333/10000,
             edge_over := 0, edge_under := 1667/10000 } := by
  rw [(rounding_at_record_construction cdfR (Value.str "P") 3 2 (5/2) 3 (5/2)
    (by decide) (by decide)).1]
  decide

/-- Claim C7 counterexample: on the spec's own sample record (rate 3.8,
line 3.5, odds 1.85/1.95, CDF value 0.47348481), the summary statistic
`best_ev` equals the 4-decimal rounding -0.0259 of the record's best EV,
not the full-precision value -0.02594 68985 recomputed from the same
inputs — so the computations after the per-record stage do not operate on
unrounded values. -/
theorem summary_reports_rounded_best_ev_counterexample :
    ((analyze_betting_opportunities cdfC7 dfC7).map
        (fun rows => List.lookup "best_ev" (get_summary_statistics rows))) =
      some (some (-259 / 10000)) ∧
    calculate_expected_value (1 - cdfC7 3 (19/5)) (37/20) = -51893797 / 2000000000 ∧
    (-259 / 10000 : ℚ) ≠ -51893797 / 2000000000 :=
  ⟨by decide, by decide, by decide⟩

end BettingModel
